import Mathlib

/-!
Verification of the staged provisioning pipeline in
`azure_blobrepo_rpm/tooling/create_resources.py`.

The orchestrator `main` is embedded shallowly as a deterministic function
of the parsed arguments and an environment oracle (`Env`) that fixes the
outcome of every external collaborator call (resource-group creation,
requirements extraction, the two Bicep deployments, the function-app
bundle's context manager, and the event-trigger wait).  The run produces
the ordered trace of external calls (`Event`) together with either
success (`none`) or the first error raised (`Err`).
-/

/-- Scalar parameter values passed to Bicep deployments and the
function-app bundle (Python passes strings and booleans). -/
inductive PValue where
  | str (s : String)
  | bool (b : Bool)
deriving DecidableEq

/-- One external call made by `main`, in program order.  `bicepCreate`
records a `BicepDeployment(...).create()` call; `funcAppEnter` records a
successful acquisition of the `FuncAppBundle` context manager (the
`with funcapp as cm:` entry) with the constructor's arguments;
`funcAppRelease` is the context-manager exit that finalizes the bundle's
provisioning handle. -/
inductive Event where
  | createRG (name location : String)
  | extractRequirements
  | bicepCreate (deployment_name resource_group_name template_file : String)
      (parameters : List (String × PValue)) (description : String)
  | funcAppEnter (name resource_group storage_account python_container : String)
      (parameters : List (String × PValue))
  | funcAppDeploy
  | waitForEventTrigger
  | funcAppRelease
  | adviceDistribution (upload_directory package_container storage_account
      function_app_name base_url : String)
  | adviceFlat (upload_directory package_container storage_account
      function_app_name base_url : String)
deriving DecidableEq

/-- Error outcomes of a run, named after the spec's error taxonomy.
`validationError` is the `ValueError` for an over-long suffix;
`configurationError` is argparse's rejection of a repo type outside its
`choices`; `missingOutput` is the `KeyError` on a missing deployment
output; `invalidRepoType` is the terminal `else: raise ValueError`. -/
inductive Err where
  | validationError
  | configurationError
  | containerCreationError
  | requirementsError
  | deploymentFailed (name : String)
  | missingOutput (key : String)
  | bundleDeployError
  | funcAppDeployError
  | triggerWaitError
  | invalidRepoType (repo_type : String)
deriving DecidableEq

/-- The parsed command-line arguments (`args` after `parser.parse_args()`). -/
structure Args where
  resource_group : String
  location : String
  suffix : Option String
  upload_directory : String
  repo_type : String
deriving DecidableEq

/-- Raw command-line input before argparse applies defaults and the
`choices` restriction: each optional flag is `none` when absent. -/
structure RawArgs where
  resource_group : String
  location : Option String
  suffix : Option String
  upload_directory : Option String
  repo_type : Option String
deriving DecidableEq

/-- Oracle for the external collaborators: whether each call succeeds, and
the outputs mapping the initial Bicep deployment reports. -/
structure Env where
  create_rg_ok : Bool
  extract_requirements_ok : Bool
  initial_create_ok : Bool
  initial_outputs : List (String × String)
  funcapp_enter_ok : Bool
  funcapp_deploy_ok : Bool
  wait_trigger_ok : Bool
  eventgrid_create_ok : Bool
deriving DecidableEq

/-- Python truthiness of the optional suffix string: `None` and the empty
string are falsy. -/
def truthy : Option String → Bool
  | none => false
  | some s => !s.isEmpty

/-- The guard `args.suffix and len(args.suffix) > 14` (line 51). -/
def suffixTooLong : Option String → Bool
  | none => false
  | some s => !s.isEmpty && decide (s.length > 14)

/-- `common_parameters` (lines 63-65): starts empty, gains a `"suffix"`
entry only when `args.suffix` is truthy. -/
def commonParameters : Option String → List (String × PValue)
  | none => []
  | some s => if s.isEmpty then [] else [("suffix", PValue.str s)]

/-- Python `dict.update` on association lists: existing keys keep their
position but take the updating value; new keys are appended. -/
def pyUpdate (base upd : List (String × PValue)) : List (String × PValue) :=
  base.map (fun kv =>
    match upd.lookup kv.1 with
    | some v => (kv.1, v)
    | none => kv)
  ++ upd.filter (fun kv => (base.lookup kv.1).isNone)

/-- `initial_parameters` (lines 67-72). -/
def initialParameters (args : Args) : List (String × PValue) :=
  pyUpdate
    [("use_shared_keys", PValue.bool false),
     ("repo_type", PValue.str args.repo_type),
     ("upload_directory", PValue.str args.upload_directory)]
    (commonParameters args.suffix)

/-- `funcapp_parameters` (lines 95-99). -/
def funcappParameters (args : Args) : List (String × PValue) :=
  pyUpdate
    [("repo_type", PValue.str args.repo_type),
     ("upload_directory", PValue.str args.upload_directory)]
    (commonParameters args.suffix)

/-- The body of `main` after argument parsing (lines 51-142), as a
function of the parsed arguments and the environment oracle.  Returns the
ordered trace of external calls together with `none` on success or the
first error raised.  An event for a call is emitted even when that call
fails (the attempt happened); the `with` block emits `funcAppEnter` only
when acquisition succeeds and then always emits `funcAppRelease` after
the body, whether the body succeeded or raised. -/
def mainRun (args : Args) (env : Env) : List Event × Option Err :=
  if suffixTooLong args.suffix then ([], some Err.validationError)
  else
    let t := [Event.createRG args.resource_group args.location]
    if !env.create_rg_ok then (t, some Err.containerCreationError) else
    let t := t ++ [Event.extractRequirements]
    if !env.extract_requirements_ok then (t, some Err.requirementsError) else
    let deployment_name := args.resource_group
    let t := t ++ [Event.bicepCreate deployment_name args.resource_group "rg.bicep"
      (initialParameters args) "initial resources"]
    if !env.initial_create_ok then (t, some (Err.deploymentFailed deployment_name)) else
    match env.initial_outputs.lookup "base_url",
          env.initial_outputs.lookup "function_app_name",
          env.initial_outputs.lookup "package_container",
          env.initial_outputs.lookup "python_container",
          env.initial_outputs.lookup "storage_account" with
    | none, _, _, _, _ => (t, some (Err.missingOutput "base_url"))
    | some _, none, _, _, _ => (t, some (Err.missingOutput "function_app_name"))
    | some _, some _, none, _, _ => (t, some (Err.missingOutput "package_container"))
    | some _, some _, some _, none, _ => (t, some (Err.missingOutput "python_container"))
    | some _, some _, some _, some _, none => (t, some (Err.missingOutput "storage_account"))
    | some base_url, some function_app_name, some package_container,
        some python_container, some storage_account =>
      if !env.funcapp_enter_ok then (t, some Err.bundleDeployError) else
      let t := t ++ [Event.funcAppEnter function_app_name args.resource_group
        storage_account python_container (funcappParameters args)]
      let t := t ++ [Event.funcAppDeploy]
      if !env.funcapp_deploy_ok then
        (t ++ [Event.funcAppRelease], some Err.funcAppDeployError) else
      let t := t ++ [Event.waitForEventTrigger]
      if !env.wait_trigger_ok then
        (t ++ [Event.funcAppRelease], some Err.triggerWaitError) else
      let t := t ++ [Event.funcAppRelease]
      let t := t ++ [Event.bicepCreate (deployment_name ++ "_eg") args.resource_group
        "rg_add_eventgrid.bicep" (commonParameters args.suffix)
        "Event Grid trigger configuration"]
      if !env.eventgrid_create_ok then
        (t, some (Err.deploymentFailed (deployment_name ++ "_eg"))) else
      if args.repo_type = "distribution" then
        (t ++ [Event.adviceDistribution args.upload_directory package_container
          storage_account function_app_name base_url], none)
      else if args.repo_type = "flat" then
        (t ++ [Event.adviceFlat args.upload_directory package_container
          storage_account function_app_name base_url], none)
      else
        (t, some (Err.invalidRepoType args.repo_type))

/-- Argument parsing (lines 24-49): applies the documented defaults and
rejects a `--repo-type` value outside `choices=["flat", "distribution"]`
before `main`'s body runs. -/
def parseArgs (raw : RawArgs) : Except Err Args :=
  let rt := raw.repo_type.getD "distribution"
  if rt = "flat" ∨ rt = "distribution" then
    Except.ok
      { resource_group := raw.resource_group
        location := raw.location.getD "eastus"
        suffix := raw.suffix
        upload_directory := raw.upload_directory.getD "upload"
        repo_type := rt }
  else
    Except.error Err.configurationError

/-- The whole program run: parse, then execute `main`'s body.  A parse
failure produces an empty trace (no external call is ever made). -/
def runProgram (raw : RawArgs) (env : Env) : List Event × Option Err :=
  match parseArgs raw with
  | Except.error e => ([], some e)
  | Except.ok args => mainRun args env

/-- Pipeline stage index of an event, in the fixed program order of
`main`: resource-group creation, requirements extraction, initial Bicep
deployment, bundle acquisition, bundle deploy, trigger wait, bundle
release, event-grid Bicep deployment, advisory. -/
def stageOf : Event → Nat
  | Event.createRG _ _ => 0
  | Event.extractRequirements => 1
  | Event.bicepCreate _ _ tf _ _ => if tf = "rg.bicep" then 2 else 7
  | Event.funcAppEnter _ _ _ _ _ => 3
  | Event.funcAppDeploy => 4
  | Event.waitForEventTrigger => 5
  | Event.funcAppRelease => 6
  | Event.adviceDistribution _ _ _ _ _ => 8
  | Event.adviceFlat _ _ _ _ _ => 8

/-- Recognizes the acquisition of the function-app bundle session. -/
def isEnter : Event → Bool
  | Event.funcAppEnter _ _ _ _ _ => true
  | _ => false

/-- Recognizes the release of the function-app bundle session. -/
def isRelease : Event → Bool
  | Event.funcAppRelease => true
  | _ => false

/-- Recognizes the distribution-mode advisory call. -/
def isAdviceDistribution : Event → Bool
  | Event.adviceDistribution _ _ _ _ _ => true
  | _ => false

/-- Recognizes the flat-mode advisory call. -/
def isAdviceFlat : Event → Bool
  | Event.adviceFlat _ _ _ _ _ => true
  | _ => false

/-- The deployment names submitted to the Bicep deployment service, in
order of submission. -/
def deploymentNames (t : List Event) : List String :=
  t.filterMap (fun e =>
    match e with
    | Event.bicepCreate n _ _ _ _ => some n
    | _ => none)

/-- A character safe for use inside Azure resource names: a lowercase
letter or a digit. -/
def isSafeSuffixChar (c : Char) : Bool :=
  c.isLower || c.isDigit

/-- Base-36 digit character: `0`-`9` then `a`-`z`. -/
def base36Char (n : Nat) : Char :=
  if n < 10 then Char.ofNat (48 + n) else Char.ofNat (87 + n)

/-- Modelled from the spec: the random suffix generated when the user
supplies none.  In the repository this generation does not live under
`src/` (the Bicep template derives it), so it is modelled from spec
section 4.1: a 13-character token over a restricted character set
(lowercase base-36), derived here from an arbitrary entropy seed. -/
def generateSuffix (seed : Nat) : String :=
  String.mk ((List.range 13).map (fun i => base36Char (seed / 36 ^ i % 36)))

/-- Modelled from the spec: `NameSuffixPolicy.resolve` — validates a
user-supplied suffix (at most 14 characters) or generates one from the
entropy seed when the user supplied none. -/
def nameSuffixResolve (userSuffix : Option String) (seed : Nat) : Except Err String :=
  match userSuffix with
  | some s => if s.length > 14 then Except.error Err.validationError else Except.ok s
  | none => Except.ok (generateSuffix seed)

theorem stageOf_bicep_initial (a b : String) (p : List (String × PValue)) (d : String) :
    stageOf (Event.bicepCreate a b "rg.bicep" p d) = 2 := by
  simp [stageOf]

theorem stageOf_bicep_eg (a b : String) (p : List (String × PValue)) (d : String) :
    stageOf (Event.bicepCreate a b "rg_add_eventgrid.bicep" p d) = 7 := by
  simp [stageOf]

/-- The `create_rg` call event of a run. -/
def rgEv (args : Args) : Event :=
  Event.createRG args.resource_group args.location

/-- The initial Bicep deployment call event of a run. -/
def initialBicepEv (args : Args) : Event :=
  Event.bicepCreate args.resource_group args.resource_group "rg.bicep"
    (initialParameters args) "initial resources"

/-- The function-app bundle acquisition event of a run. -/
def enterEv (args : Args) (fan sa pc : String) : Event :=
  Event.funcAppEnter fan args.resource_group sa pc (funcappParameters args)

/-- The event-grid Bicep deployment call event of a run. -/
def egBicepEv (args : Args) : Event :=
  Event.bicepCreate (args.resource_group ++ "_eg") args.resource_group
    "rg_add_eventgrid.bicep" (commonParameters args.suffix)
    "Event Grid trigger configuration"

/-- Trace prefix through the initial Bicep deployment. -/
def traceThroughInitial (args : Args) : List Event :=
  [rgEv args, Event.extractRequirements, initialBicepEv args]

/-- Trace prefix through the bundle release (successful deploy and wait). -/
def traceThroughBundle (args : Args) (fan sa pc : String) : List Event :=
  traceThroughInitial args ++
    [enterEv args fan sa pc, Event.funcAppDeploy, Event.waitForEventTrigger,
     Event.funcAppRelease]

/-- Trace prefix through the event-grid deployment. -/
def traceThroughEg (args : Args) (fan sa pc : String) : List Event :=
  traceThroughBundle args fan sa pc ++ [egBicepEv args]

theorem mainRun_eq_validation (args : Args) (env : Env)
    (hs : suffixTooLong args.suffix = true) :
    mainRun args env = ([], some Err.validationError) := by
  simp [mainRun, hs]

theorem mainRun_eq_rgFail (args : Args) (env : Env)
    (hs : suffixTooLong args.suffix = false) (h1 : env.create_rg_ok = false) :
    mainRun args env = ([rgEv args], some Err.containerCreationError) := by
  simp [mainRun, hs, h1, rgEv]

theorem mainRun_eq_reqFail (args : Args) (env : Env)
    (hs : suffixTooLong args.suffix = false) (h1 : env.create_rg_ok = true)
    (h2 : env.extract_requirements_ok = false) :
    mainRun args env = ([rgEv args, Event.extractRequirements], some Err.requirementsError) := by
  simp [mainRun, hs, h1, h2, rgEv]

theorem mainRun_eq_initialFail (args : Args) (env : Env)
    (hs : suffixTooLong args.suffix = false) (h1 : env.create_rg_ok = true)
    (h2 : env.extract_requirements_ok = true) (h3 : env.initial_create_ok = false) :
    mainRun args env =
      (traceThroughInitial args, some (Err.deploymentFailed args.resource_group)) := by
  simp [mainRun, hs, h1, h2, h3, traceThroughInitial, rgEv, initialBicepEv]

theorem mainRun_eq_missingBase (args : Args) (env : Env)
    (hs : suffixTooLong args.suffix = false) (h1 : env.create_rg_ok = true)
    (h2 : env.extract_requirements_ok = true) (h3 : env.initial_create_ok = true)
    (hb : env.initial_outputs.lookup "base_url" = none) :
    mainRun args env = (traceThroughInitial args, some (Err.missingOutput "base_url")) := by
  simp [mainRun, hs, h1, h2, h3, hb, traceThroughInitial, rgEv, initialBicepEv]

theorem mainRun_eq_missingFan (args : Args) (env : Env) (b : String)
    (hs : suffixTooLong args.suffix = false) (h1 : env.create_rg_ok = true)
    (h2 : env.extract_requirements_ok = true) (h3 : env.initial_create_ok = true)
    (hb : env.initial_outputs.lookup "base_url" = some b)
    (hf : env.initial_outputs.lookup "function_app_name" = none) :
    mainRun args env =
      (traceThroughInitial args, some (Err.missingOutput "function_app_name")) := by
  simp [mainRun, hs, h1, h2, h3, hb, hf, traceThroughInitial, rgEv, initialBicepEv]

theorem mainRun_eq_missingPkg (args : Args) (env : Env) (b f : String)
    (hs : suffixTooLong args.suffix = false) (h1 : env.create_rg_ok = true)
    (h2 : env.extract_requirements_ok = true) (h3 : env.initial_create_ok = true)
    (hb : env.initial_outputs.lookup "base_url" = some b)
    (hf : env.initial_outputs.lookup "function_app_name" = some f)
    (hp : env.initial_outputs.lookup "package_container" = none) :
    mainRun args env =
      (traceThroughInitial args, some (Err.missingOutput "package_container")) := by
  simp [mainRun, hs, h1, h2, h3, hb, hf, hp, traceThroughInitial, rgEv, initialBicepEv]

theorem mainRun_eq_missingPy (args : Args) (env : Env) (b f p : String)
    (hs : suffixTooLong args.suffix = false) (h1 : env.create_rg_ok = true)
    (h2 : env.extract_requirements_ok = true) (h3 : env.initial_create_ok = true)
    (hb : env.initial_outputs.lookup "base_url" = some b)
    (hf : env.initial_outputs.lookup "function_app_name" = some f)
    (hp : env.initial_outputs.lookup "package_container" = some p)
    (hy : env.initial_outputs.lookup "python_container" = none) :
    mainRun args env =
      (traceThroughInitial args, some (Err.missingOutput "python_container")) := by
  simp [mainRun, hs, h1, h2, h3, hb, hf, hp, hy, traceThroughInitial, rgEv, initialBicepEv]

theorem mainRun_eq_missingSa (args : Args) (env : Env) (b f p y : String)
    (hs : suffixTooLong args.suffix = false) (h1 : env.create_rg_ok = true)
    (h2 : env.extract_requirements_ok = true) (h3 : env.initial_create_ok = true)
    (hb : env.initial_outputs.lookup "base_url" = some b)
    (hf : env.initial_outputs.lookup "function_app_name" = some f)
    (hp : env.initial_outputs.lookup "package_container" = some p)
    (hy : env.initial_outputs.lookup "python_container" = some y)
    (ha : env.initial_outputs.lookup "storage_account" = none) :
    mainRun args env =
      (traceThroughInitial args, some (Err.missingOutput "storage_account")) := by
  simp [mainRun, hs, h1, h2, h3, hb, hf, hp, hy, ha, traceThroughInitial, rgEv,
    initialBicepEv]

theorem mainRun_eq_enterFail (args : Args) (env : Env) (b f p y a : String)
    (hs : suffixTooLong args.suffix = false) (h1 : env.create_rg_ok = true)
    (h2 : env.extract_requirements_ok = true) (h3 : env.initial_create_ok = true)
    (hb : env.initial_outputs.lookup "base_url" = some b)
    (hf : env.initial_outputs.lookup "function_app_name" = some f)
    (hp : env.initial_outputs.lookup "package_container" = some p)
    (hy : env.initial_outputs.lookup "python_container" = some y)
    (ha : env.initial_outputs.lookup "storage_account" = some a)
    (h4 : env.funcapp_enter_ok = false) :
    mainRun args env = (traceThroughInitial args, some Err.bundleDeployError) := by
  simp [mainRun, hs, h1, h2, h3, hb, hf, hp, hy, ha, h4, traceThroughInitial, rgEv,
    initialBicepEv]

theorem mainRun_eq_deployFail (args : Args) (env : Env) (b f p y a : String)
    (hs : suffixTooLong args.suffix = false) (h1 : env.create_rg_ok = true)
    (h2 : env.extract_requirements_ok = true) (h3 : env.initial_create_ok = true)
    (hb : env.initial_outputs.lookup "base_url" = some b)
    (hf : env.initial_outputs.lookup "function_app_name" = some f)
    (hp : env.initial_outputs.lookup "package_container" = some p)
    (hy : env.initial_outputs.lookup "python_container" = some y)
    (ha : env.initial_outputs.lookup "storage_account" = some a)
    (h4 : env.funcapp_enter_ok = true) (h5 : env.funcapp_deploy_ok = false) :
    mainRun args env =
      (traceThroughInitial args ++
        [enterEv args f a y, Event.funcAppDeploy, Event.funcAppRelease],
       some Err.funcAppDeployError) := by
  simp [mainRun, hs, h1, h2, h3, hb, hf, hp, hy, ha, h4, h5, traceThroughInitial, rgEv,
    initialBicepEv, enterEv]

theorem mainRun_eq_waitFail (args : Args) (env : Env) (b f p y a : String)
    (hs : suffixTooLong args.suffix = false) (h1 : env.create_rg_ok = true)
    (h2 : env.extract_requirements_ok = true) (h3 : env.initial_create_ok = true)
    (hb : env.initial_outputs.lookup "base_url" = some b)
    (hf : env.initial_outputs.lookup "function_app_name" = some f)
    (hp : env.initial_outputs.lookup "package_container" = some p)
    (hy : env.initial_outputs.lookup "python_container" = some y)
    (ha : env.initial_outputs.lookup "storage_account" = some a)
    (h4 : env.funcapp_enter_ok = true) (h5 : env.funcapp_deploy_ok = true)
    (h6 : env.wait_trigger_ok = false) :
    mainRun args env =
      (traceThroughInitial args ++
        [enterEv args f a y, Event.funcAppDeploy, Event.waitForEventTrigger,
         Event.funcAppRelease],
       some Err.triggerWaitError) := by
  simp [mainRun, hs, h1, h2, h3, hb, hf, hp, hy, ha, h4, h5, h6, traceThroughInitial,
    rgEv, initialBicepEv, enterEv]

theorem mainRun_eq_egFail (args : Args) (env : Env) (b f p y a : String)
    (hs : suffixTooLong args.suffix = false) (h1 : env.create_rg_ok = true)
    (h2 : env.extract_requirements_ok = true) (h3 : env.initial_create_ok = true)
    (hb : env.initial_outputs.lookup "base_url" = some b)
    (hf : env.initial_outputs.lookup "function_app_name" = some f)
    (hp : env.initial_outputs.lookup "package_container" = some p)
    (hy : env.initial_outputs.lookup "python_container" = some y)
    (ha : env.initial_outputs.lookup "storage_account" = some a)
    (h4 : env.funcapp_enter_ok = true) (h5 : env.funcapp_deploy_ok = true)
    (h6 : env.wait_trigger_ok = true) (h7 : env.eventgrid_create_ok = false) :
    mainRun args env =
      (traceThroughEg args f a y,
       some (Err.deploymentFailed (args.resource_group ++ "_eg"))) := by
  simp [mainRun, hs, h1, h2, h3, hb, hf, hp, hy, ha, h4, h5, h6, h7, traceThroughEg,
    traceThroughBundle, traceThroughInitial, rgEv, initialBicepEv, enterEv, egBicepEv]

theorem mainRun_eq_successDist (args : Args) (env : Env) (b f p y a : String)
    (hs : suffixTooLong args.suffix = false) (h1 : env.create_rg_ok = true)
    (h2 : env.extract_requirements_ok = true) (h3 : env.initial_create_ok = true)
    (hb : env.initial_outputs.lookup "base_url" = some b)
    (hf : env.initial_outputs.lookup "function_app_name" = some f)
    (hp : env.initial_outputs.lookup "package_container" = some p)
    (hy : env.initial_outputs.lookup "python_container" = some y)
    (ha : env.initial_outputs.lookup "storage_account" = some a)
    (h4 : env.funcapp_enter_ok = true) (h5 : env.funcapp_deploy_ok = true)
    (h6 : env.wait_trigger_ok = true) (h7 : env.eventgrid_create_ok = true)
    (h8 : args.repo_type = "distribution") :
    mainRun args env =
      (traceThroughEg args f a y ++
        [Event.adviceDistribution args.upload_directory p a f b], none) := by
  simp [mainRun, hs, h1, h2, h3, hb, hf, hp, hy, ha, h4, h5, h6, h7, h8, traceThroughEg,
    traceThroughBundle, traceThroughInitial, rgEv, initialBicepEv, enterEv, egBicepEv]

theorem mainRun_eq_successFlat (args : Args) (env : Env) (b f p y a : String)
    (hs : suffixTooLong args.suffix = false) (h1 : env.create_rg_ok = true)
    (h2 : env.extract_requirements_ok = true) (h3 : env.initial_create_ok = true)
    (hb : env.initial_outputs.lookup "base_url" = some b)
    (hf : env.initial_outputs.lookup "function_app_name" = some f)
    (hp : env.initial_outputs.lookup "package_container" = some p)
    (hy : env.initial_outputs.lookup "python_container" = some y)
    (ha : env.initial_outputs.lookup "storage_account" = some a)
    (h4 : env.funcapp_enter_ok = true) (h5 : env.funcapp_deploy_ok = true)
    (h6 : env.wait_trigger_ok = true) (h7 : env.eventgrid_create_ok = true)
    (h8 : args.repo_type = "flat") :
    mainRun args env =
      (traceThroughEg args f a y ++
        [Event.adviceFlat args.upload_directory p a f b], none) := by
  simp [mainRun, hs, h1, h2, h3, hb, hf, hp, hy, ha, h4, h5, h6, h7, h8, traceThroughEg,
    traceThroughBundle, traceThroughInitial, rgEv, initialBicepEv, enterEv, egBicepEv]

theorem mainRun_eq_invalidRepo (args : Args) (env : Env) (b f p y a : String)
    (hs : suffixTooLong args.suffix = false) (h1 : env.create_rg_ok = true)
    (h2 : env.extract_requirements_ok = true) (h3 : env.initial_create_ok = true)
    (hb : env.initial_outputs.lookup "base_url" = some b)
    (hf : env.initial_outputs.lookup "function_app_name" = some f)
    (hp : env.initial_outputs.lookup "package_container" = some p)
    (hy : env.initial_outputs.lookup "python_container" = some y)
    (ha : env.initial_outputs.lookup "storage_account" = some a)
    (h4 : env.funcapp_enter_ok = true) (h5 : env.funcapp_deploy_ok = true)
    (h6 : env.wait_trigger_ok = true) (h7 : env.eventgrid_create_ok = true)
    (h8 : args.repo_type ≠ "distribution") (h9 : args.repo_type ≠ "flat") :
    mainRun args env =
      (traceThroughEg args f a y, some (Err.invalidRepoType args.repo_type)) := by
  simp [mainRun, hs, h1, h2, h3, hb, hf, hp, hy, ha, h4, h5, h6, h7, h8, h9,
    traceThroughEg, traceThroughBundle, traceThroughInitial, rgEv, initialBicepEv,
    enterEv, egBicepEv]

/-- Exhaustive characterization of `mainRun`. -/
theorem mainRun_cases (args : Args) (env : Env) :
    (suffixTooLong args.suffix = true ∧
      mainRun args env = ([], some Err.validationError)) ∨
    (suffixTooLong args.suffix = false ∧ env.create_rg_ok = false ∧
      mainRun args env = ([rgEv args], some Err.containerCreationError)) ∨
    (suffixTooLong args.suffix = false ∧ env.create_rg_ok = true ∧
      env.extract_requirements_ok = false ∧
      mainRun args env =
        ([rgEv args, Event.extractRequirements], some Err.requirementsError)) ∨
    (suffixTooLong args.suffix = false ∧ env.create_rg_ok = true ∧
      env.extract_requirements_ok = true ∧ env.initial_create_ok = false ∧
      mainRun args env =
        (traceThroughInitial args, some (Err.deploymentFailed args.resource_group))) ∨
    (suffixTooLong args.suffix = false ∧ env.create_rg_ok = true ∧
      env.extract_requirements_ok = true ∧ env.initial_create_ok = true ∧
      (∃ k, k ∈ ["base_url", "function_app_name", "package_container",
          "python_container", "storage_account"] ∧
        env.initial_outputs.lookup k = none ∧
        mainRun args env = (traceThroughInitial args, some (Err.missingOutput k)))) ∨
    (∃ b f p y a, suffixTooLong args.suffix = false ∧ env.create_rg_ok = true ∧
      env.extract_requirements_ok = true ∧ env.initial_create_ok = true ∧
      env.initial_outputs.lookup "base_url" = some b ∧
      env.initial_outputs.lookup "function_app_name" = some f ∧
      env.initial_outputs.lookup "package_container" = some p ∧
      env.initial_outputs.lookup "python_container" = some y ∧
      env.initial_outputs.lookup "storage_account" = some a ∧
      ((env.funcapp_enter_ok = false ∧
        mainRun args env = (traceThroughInitial args, some Err.bundleDeployError)) ∨
       (env.funcapp_enter_ok = true ∧ env.funcapp_deploy_ok = false ∧
        mainRun args env =
          (traceThroughInitial args ++
            [enterEv args f a y, Event.funcAppDeploy, Event.funcAppRelease],
           some Err.funcAppDeployError)) ∨
       (env.funcapp_enter_ok = true ∧ env.funcapp_deploy_ok = true ∧
        env.wait_trigger_ok = false ∧
        mainRun args env =
          (traceThroughInitial args ++
            [enterEv args f a y, Event.funcAppDeploy, Event.waitForEventTrigger,
             Event.funcAppRelease],
           some Err.triggerWaitError)) ∨
       (env.funcapp_enter_ok = true ∧ env.funcapp_deploy_ok = true ∧
        env.wait_trigger_ok = true ∧ env.eventgrid_create_ok = false ∧
        mainRun args env =
          (traceThroughEg args f a y,
           some (Err.deploymentFailed (args.resource_group ++ "_eg")))) ∨
       (env.funcapp_enter_ok = true ∧ env.funcapp_deploy_ok = true ∧
        env.wait_trigger_ok = true ∧ env.eventgrid_create_ok = true ∧
        args.repo_type = "distribution" ∧
        mainRun args env =
          (traceThroughEg args f a y ++
            [Event.adviceDistribution args.upload_directory p a f b], none)) ∨
       (env.funcapp_enter_ok = true ∧ env.funcapp_deploy_ok = true ∧
        env.wait_trigger_ok = true ∧ env.eventgrid_create_ok = true ∧
        args.repo_type = "flat" ∧
        mainRun args env =
          (traceThroughEg args f a y ++
            [Event.adviceFlat args.upload_directory p a f b], none)) ∨
       (env.funcapp_enter_ok = true ∧ env.funcapp_deploy_ok = true ∧
        env.wait_trigger_ok = true ∧ env.eventgrid_create_ok = true ∧
        args.repo_type ≠ "distribution" ∧ args.repo_type ≠ "flat" ∧
        mainRun args env =
          (traceThroughEg args f a y,
           some (Err.invalidRepoType args.repo_type))))) := by
  cases hs : suffixTooLong args.suffix
  case true =>
    exact Or.inl ⟨rfl, mainRun_eq_validation args env hs⟩
  case false =>
  cases h1 : env.create_rg_ok
  case false =>
    exact Or.inr (Or.inl ⟨rfl, rfl, mainRun_eq_rgFail args env hs h1⟩)
  case true =>
  cases h2 : env.extract_requirements_ok
  case false =>
    exact Or.inr (Or.inr (Or.inl ⟨rfl, rfl, rfl, mainRun_eq_reqFail args env hs h1 h2⟩))
  case true =>
  cases h3 : env.initial_create_ok
  case false =>
    exact Or.inr (Or.inr (Or.inr (Or.inl
      ⟨rfl, rfl, rfl, rfl, mainRun_eq_initialFail args env hs h1 h2 h3⟩)))
  case true =>
  cases hb : env.initial_outputs.lookup "base_url"
  case none =>
    exact Or.inr (Or.inr (Or.inr (Or.inr (Or.inl ⟨rfl, rfl, rfl, rfl, "base_url",
      by simp, hb, mainRun_eq_missingBase args env hs h1 h2 h3 hb⟩))))
  case some b =>
  cases hf : env.initial_outputs.lookup "function_app_name"
  case none =>
    exact Or.inr (Or.inr (Or.inr (Or.inr (Or.inl ⟨rfl, rfl, rfl, rfl, "function_app_name",
      by simp, hf, mainRun_eq_missingFan args env b hs h1 h2 h3 hb hf⟩))))
  case some f =>
  cases hp : env.initial_outputs.lookup "package_container"
  case none =>
    exact Or.inr (Or.inr (Or.inr (Or.inr (Or.inl ⟨rfl, rfl, rfl, rfl, "package_container",
      by simp, hp, mainRun_eq_missingPkg args env b f hs h1 h2 h3 hb hf hp⟩))))
  case some p =>
  cases hy : env.initial_outputs.lookup "python_container"
  case none =>
    exact Or.inr (Or.inr (Or.inr (Or.inr (Or.inl ⟨rfl, rfl, rfl, rfl, "python_container",
      by simp, hy, mainRun_eq_missingPy args env b f p hs h1 h2 h3 hb hf hp hy⟩))))
  case some y =>
  cases ha : env.initial_outputs.lookup "storage_account"
  case none =>
    exact Or.inr (Or.inr (Or.inr (Or.inr (Or.inl ⟨rfl, rfl, rfl, rfl, "storage_account",
      by simp, ha, mainRun_eq_missingSa args env b f p y hs h1 h2 h3 hb hf hp hy ha⟩))))
  case some a =>
  refine Or.inr (Or.inr (Or.inr (Or.inr (Or.inr
    ⟨b, f, p, y, a, rfl, rfl, rfl, rfl, rfl, rfl, rfl, rfl, rfl, ?_⟩))))
  cases h4 : env.funcapp_enter_ok
  case false =>
    exact Or.inl ⟨rfl, mainRun_eq_enterFail args env b f p y a hs h1 h2 h3 hb hf hp hy ha h4⟩
  case true =>
  cases h5 : env.funcapp_deploy_ok
  case false =>
    exact Or.inr (Or.inl ⟨rfl, rfl,
      mainRun_eq_deployFail args env b f p y a hs h1 h2 h3 hb hf hp hy ha h4 h5⟩)
  case true =>
  cases h6 : env.wait_trigger_ok
  case false =>
    exact Or.inr (Or.inr (Or.inl ⟨rfl, rfl, rfl,
      mainRun_eq_waitFail args env b f p y a hs h1 h2 h3 hb hf hp hy ha h4 h5 h6⟩))
  case true =>
  cases h7 : env.eventgrid_create_ok
  case false =>
    exact Or.inr (Or.inr (Or.inr (Or.inl ⟨rfl, rfl, rfl, rfl,
      mainRun_eq_egFail args env b f p y a hs h1 h2 h3 hb hf hp hy ha h4 h5 h6 h7⟩)))
  case true =>
  by_cases h8 : args.repo_type = "distribution"
  · exact Or.inr (Or.inr (Or.inr (Or.inr (Or.inl ⟨rfl, rfl, rfl, rfl, h8,
      mainRun_eq_successDist args env b f p y a hs h1 h2 h3 hb hf hp hy ha h4 h5 h6 h7 h8⟩))))
  by_cases h9 : args.repo_type = "flat"
  · exact Or.inr (Or.inr (Or.inr (Or.inr (Or.inr (Or.inl ⟨rfl, rfl, rfl, rfl, h9,
      mainRun_eq_successFlat args env b f p y a hs h1 h2 h3 hb hf hp hy ha h4 h5 h6 h7 h9⟩)))))
  exact Or.inr (Or.inr (Or.inr (Or.inr (Or.inr (Or.inr ⟨rfl, rfl, rfl, rfl, h8, h9,
    mainRun_eq_invalidRepo args env b f p y a hs h1 h2 h3 hb hf hp hy ha h4 h5 h6 h7 h8 h9⟩)))))

theorem map_stageOf_of_none (args : Args) (env : Env)
    (h : (mainRun args env).2 = none) :
    (mainRun args env).1.map stageOf = [0, 1, 2, 3, 4, 5, 6, 7, 8] := by
  rcases mainRun_cases args env with ⟨_, hm⟩ | ⟨_, _, hm⟩ | ⟨_, _, _, hm⟩ |
    ⟨_, _, _, _, hm⟩ | ⟨_, _, _, _, k, _, _, hm⟩ |
    ⟨b, f, p, y, a, _, _, _, _, _, _, _, _, _,
      (⟨_, hm⟩ | ⟨_, _, hm⟩ | ⟨_, _, _, hm⟩ | ⟨_, _, _, _, hm⟩ |
       ⟨_, _, _, _, _, hm⟩ | ⟨_, _, _, _, _, hm⟩ | ⟨_, _, _, _, _, _, hm⟩)⟩ <;>
    rw [hm] at h ⊢ <;>
    simp_all [traceThroughEg, traceThroughBundle, traceThroughInitial, rgEv,
      initialBicepEv, enterEv, egBicepEv, stageOf, stageOf_bicep_initial,
      stageOf_bicep_eg]

theorem pairwise_stageOf (args : Args) (env : Env) :
    List.Pairwise (· < ·) ((mainRun args env).1.map stageOf) := by
  rcases mainRun_cases args env with ⟨_, hm⟩ | ⟨_, _, hm⟩ | ⟨_, _, _, hm⟩ |
    ⟨_, _, _, _, hm⟩ | ⟨_, _, _, _, k, _, _, hm⟩ |
    ⟨b, f, p, y, a, _, _, _, _, _, _, _, _, _,
      (⟨_, hm⟩ | ⟨_, _, hm⟩ | ⟨_, _, _, hm⟩ | ⟨_, _, _, _, hm⟩ |
       ⟨_, _, _, _, _, hm⟩ | ⟨_, _, _, _, _, hm⟩ | ⟨_, _, _, _, _, _, hm⟩)⟩ <;>
    rw [hm] <;>
    simp [traceThroughEg, traceThroughBundle, traceThroughInitial, rgEv,
      initialBicepEv, enterEv, egBicepEv, stageOf, stageOf_bicep_initial,
      stageOf_bicep_eg]

theorem no_enter_of_initial_fail (args : Args) (env : Env)
    (h : env.initial_create_ok = false) :
    (mainRun args env).1.countP isEnter = 0 := by
  rcases mainRun_cases args env with ⟨_, hm⟩ | ⟨_, _, hm⟩ | ⟨_, _, _, hm⟩ |
    ⟨_, _, _, _, hm⟩ | ⟨_, _, _, _, k, _, _, hm⟩ |
    ⟨b, f, p, y, a, _, _, _, h3, _, _, _, _, _,
      (⟨_, hm⟩ | ⟨_, _, hm⟩ | ⟨_, _, _, hm⟩ | ⟨_, _, _, _, hm⟩ |
       ⟨_, _, _, _, _, hm⟩ | ⟨_, _, _, _, _, hm⟩ | ⟨_, _, _, _, _, _, hm⟩)⟩ <;>
    first
      | (rw [h] at h3; cases h3)
      | (rw [hm]
         simp [traceThroughInitial, rgEv, initialBicepEv, isEnter])

theorem names_of_none (args : Args) (env : Env) (h : (mainRun args env).2 = none) :
    deploymentNames (mainRun args env).1 =
      [args.resource_group, args.resource_group ++ "_eg"] := by
  rcases mainRun_cases args env with ⟨_, hm⟩ | ⟨_, _, hm⟩ | ⟨_, _, _, hm⟩ |
    ⟨_, _, _, _, hm⟩ | ⟨_, _, _, _, k, _, _, hm⟩ |
    ⟨b, f, p, y, a, _, _, _, _, _, _, _, _, _,
      (⟨_, hm⟩ | ⟨_, _, hm⟩ | ⟨_, _, _, hm⟩ | ⟨_, _, _, _, hm⟩ |
       ⟨_, _, _, _, _, hm⟩ | ⟨_, _, _, _, _, hm⟩ | ⟨_, _, _, _, _, _, hm⟩)⟩ <;>
    rw [hm] at h ⊢ <;>
    simp_all [deploymentNames, traceThroughEg, traceThroughBundle, traceThroughInitial,
      rgEv, initialBicepEv, enterEv, egBicepEv]

theorem validation_iff (args : Args) (env : Env) :
    (mainRun args env).2 = some Err.validationError ↔
      suffixTooLong args.suffix = true := by
  rcases mainRun_cases args env with ⟨hs, hm⟩ | ⟨hs, _, hm⟩ | ⟨hs, _, _, hm⟩ |
    ⟨hs, _, _, _, hm⟩ | ⟨hs, _, _, _, k, _, _, hm⟩ |
    ⟨b, f, p, y, a, hs, _, _, _, _, _, _, _, _,
      (⟨_, hm⟩ | ⟨_, _, hm⟩ | ⟨_, _, _, hm⟩ | ⟨_, _, _, _, hm⟩ |
       ⟨_, _, _, _, _, hm⟩ | ⟨_, _, _, _, _, hm⟩ | ⟨_, _, _, _, _, _, hm⟩)⟩ <;>
    rw [hm] <;> simp [hs]

theorem release_eq_enter (args : Args) (env : Env) :
    (mainRun args env).1.countP isRelease = (mainRun args env).1.countP isEnter ∧
      (mainRun args env).1.countP isEnter ≤ 1 := by
  rcases mainRun_cases args env with ⟨_, hm⟩ | ⟨_, _, hm⟩ | ⟨_, _, _, hm⟩ |
    ⟨_, _, _, _, hm⟩ | ⟨_, _, _, _, k, _, _, hm⟩ |
    ⟨b, f, p, y, a, _, _, _, _, _, _, _, _, _,
      (⟨_, hm⟩ | ⟨_, _, hm⟩ | ⟨_, _, _, hm⟩ | ⟨_, _, _, _, hm⟩ |
       ⟨_, _, _, _, _, hm⟩ | ⟨_, _, _, _, _, hm⟩ | ⟨_, _, _, _, _, _, hm⟩)⟩ <;>
    rw [hm] <;>
    simp [traceThroughEg, traceThroughBundle, traceThroughInitial, rgEv,
      initialBicepEv, enterEv, egBicepEv, isEnter, isRelease]

theorem parse_repo_type (raw : RawArgs) (args : Args)
    (h : parseArgs raw = Except.ok args) :
    args.repo_type = "flat" ∨ args.repo_type = "distribution" := by
  simp only [parseArgs] at h
  split at h
  · injection h with h2
    subst h2
    assumption
  · cases h

theorem invalid_repo_only_outside (args : Args) (env : Env) (s : String)
    (h : (mainRun args env).2 = some (Err.invalidRepoType s)) :
    s = args.repo_type ∧ args.repo_type ≠ "distribution" ∧ args.repo_type ≠ "flat" := by
  rcases mainRun_cases args env with ⟨_, hm⟩ | ⟨_, _, hm⟩ | ⟨_, _, _, hm⟩ |
    ⟨_, _, _, _, hm⟩ | ⟨_, _, _, _, k, _, _, hm⟩ |
    ⟨b, f, p, y, a, _, _, _, _, _, _, _, _, _,
      (⟨_, hm⟩ | ⟨_, _, hm⟩ | ⟨_, _, _, hm⟩ | ⟨_, _, _, _, hm⟩ |
       ⟨_, _, _, _, _, hm⟩ | ⟨_, _, _, _, _, hm⟩ | ⟨_, _, _, h8, h9, _, hm⟩)⟩ <;>
    rw [hm] at h <;> simp_all

theorem advisory_of_mode (args : Args) (env : Env) (h : (mainRun args env).2 = none) :
    (args.repo_type = "distribution" →
      (mainRun args env).1.getLast?.any isAdviceDistribution = true) ∧
    (args.repo_type = "flat" →
      (mainRun args env).1.getLast?.any isAdviceFlat = true) := by
  rcases mainRun_cases args env with ⟨_, hm⟩ | ⟨_, _, hm⟩ | ⟨_, _, _, hm⟩ |
    ⟨_, _, _, _, hm⟩ | ⟨_, _, _, _, k, _, _, hm⟩ |
    ⟨b, f, p, y, a, _, _, _, _, _, _, _, _, _,
      (⟨_, hm⟩ | ⟨_, _, hm⟩ | ⟨_, _, _, hm⟩ | ⟨_, _, _, _, hm⟩ |
       ⟨_, _, _, _, h8, hm⟩ | ⟨_, _, _, _, h8, hm⟩ | ⟨_, _, _, _, _, _, hm⟩)⟩ <;>
    rw [hm] at h ⊢ <;>
    simp_all [isAdviceDistribution, isAdviceFlat]

/-- Concrete arguments used to exhibit claim C1 on a full run. -/
def args_c1 : Args :=
  { resource_group := "rg1", location := "westus", suffix := some "sfx1",
    upload_directory := "upload", repo_type := "distribution" }

/-- An environment where every external call succeeds and the initial
deployment reports all five expected outputs. -/
def env_c1 : Env :=
  { create_rg_ok := true, extract_requirements_ok := true, initial_create_ok := true,
    initial_outputs := [("base_url", "u1"), ("function_app_name", "f1"),
      ("package_container", "p1"), ("python_container", "y1"),
      ("storage_account", "a1")],
    funcapp_enter_ok := true, funcapp_deploy_ok := true, wait_trigger_ok := true,
    eventgrid_create_ok := true }

/-- Like `env_c1` but the initial Bicep deployment fails. -/
def env_c1_fail : Env :=
  { env_c1 with initial_create_ok := false }

/-- C1: `main` runs the stages in the fixed order — resource-group
creation, requirements extraction, initial template deployment, the
compute-bundle scoped unit, event-routing template deployment, advisory.
On a fully successful run the trace is exactly that sequence of stage
indices; on every run the stage indices are strictly increasing (no stage
is skipped over, reordered, or repeated — a failure halts the pipeline at
its current state); and if the initial template deployment fails, the
function-app bundle ("ComputeBundleStage") is never entered. -/
theorem c1_pipeline_fixed_order (args : Args) (env : Env) :
    ((mainRun args env).2 = none →
      (mainRun args env).1.map stageOf = [0, 1, 2, 3, 4, 5, 6, 7, 8]) ∧
    List.Pairwise (· < ·) ((mainRun args env).1.map stageOf) ∧
    (env.initial_create_ok = false → (mainRun args env).1.countP isEnter = 0) :=
  ⟨map_stageOf_of_none args env, pairwise_stageOf args env,
   no_enter_of_initial_fail args env⟩

/-- Witness for C1: the hypotheses hold at concrete inputs — a fully
successful run has the full stage sequence, and a run whose initial
deployment fails never enters the bundle. -/
theorem c1_pipeline_fixed_order_witness :
    (mainRun args_c1 env_c1).1.map stageOf = [0, 1, 2, 3, 4, 5, 6, 7, 8] ∧
    (mainRun args_c1 env_c1_fail).1.countP isEnter = 0 :=
  ⟨(c1_pipeline_fixed_order args_c1 env_c1).1 (by decide),
   (c1_pipeline_fixed_order args_c1 env_c1_fail).2.2 rfl⟩

/-- The end-to-end scenario input of claim C2. -/
def args_c2 : Args :=
  { resource_group := "repo1", location := "eastus", suffix := some "ab12",
    upload_directory := "upload", repo_type := "distribution" }

/-- The environment of claim C2: every call succeeds and the initial
deployment reports the five expected outputs. -/
def env_c2 : Env :=
  { create_rg_ok := true, extract_requirements_ok := true, initial_create_ok := true,
    initial_outputs := [("base_url", "https://repo1.example"),
      ("function_app_name", "funcapp1"), ("package_container", "pkgcont1"),
      ("python_container", "pycont1"), ("storage_account", "storacct1")],
    funcapp_enter_ok := true, funcapp_deploy_ok := true, wait_trigger_ok := true,
    eventgrid_create_ok := true }

/-- C2: on input (container="repo1", location="eastus", suffix="ab12",
mode="distribution", uploadDir="upload") the run creates the resource
group with ("repo1", "eastus"), submits the initial deployment named
"repo1" whose parameters include use_shared_keys=false,
repo_type="distribution", upload_directory="upload" and suffix="ab12",
parameterizes the bundle with the returned function_app_name and
storage_account, submits the event-routing deployment named "repo1_eg",
and emits the distribution advisory referencing the base_url output. -/
theorem c2_end_to_end_scenario :
    mainRun args_c2 env_c2 =
      ([Event.createRG "repo1" "eastus",
        Event.extractRequirements,
        Event.bicepCreate "repo1" "repo1" "rg.bicep"
          [("use_shared_keys", PValue.bool false),
           ("repo_type", PValue.str "distribution"),
           ("upload_directory", PValue.str "upload"),
           ("suffix", PValue.str "ab12")]
          "initial resources",
        Event.funcAppEnter "funcapp1" "repo1" "storacct1" "pycont1"
          [("repo_type", PValue.str "distribution"),
           ("upload_directory", PValue.str "upload"),
           ("suffix", PValue.str "ab12")],
        Event.funcAppDeploy,
        Event.waitForEventTrigger,
        Event.funcAppRelease,
        Event.bicepCreate "repo1_eg" "repo1" "rg_add_eventgrid.bicep"
          [("suffix", PValue.str "ab12")] "Event Grid trigger configuration",
        Event.adviceDistribution "upload" "pkgcont1" "storacct1" "funcapp1"
          "https://repo1.example"],
       none) := by
  decide

/-- Concrete arguments used to exhibit claim C3. -/
def args_c3 : Args :=
  { resource_group := "rg3", location := "eastus", suffix := none,
    upload_directory := "up3", repo_type := "flat" }

/-- An environment where the bundle session is acquired but the wait for
the event trigger fails. -/
def env_c3 : Env :=
  { create_rg_ok := true, extract_requirements_ok := true, initial_create_ok := true,
    initial_outputs := [("base_url", "u3"), ("function_app_name", "f3"),
      ("package_container", "p3"), ("python_container", "y3"),
      ("storage_account", "a3")],
    funcapp_enter_ok := true, funcapp_deploy_ok := true, wait_trigger_ok := false,
    eventgrid_create_ok := true }

/-- C3: in every run the bundle session's release event occurs exactly as
often as the session is acquired, and the session is acquired at most
once — so whenever the compute-bundle scoped unit executes (the `with`
block is entered), the provisioning handle is finalized exactly once,
whether the body's deploy step fails, the trigger wait fails, or both
succeed. -/
theorem c3_bundle_session_released_once (args : Args) (env : Env) :
    (mainRun args env).1.countP isRelease = (mainRun args env).1.countP isEnter ∧
      (mainRun args env).1.countP isEnter ≤ 1 :=
  release_eq_enter args env

/-- Witness for C3 at a concrete run whose trigger wait fails: the session
is acquired once and released once. -/
theorem c3_bundle_session_released_once_witness :
    ((mainRun args_c3 env_c3).1.countP isRelease =
        (mainRun args_c3 env_c3).1.countP isEnter ∧
      (mainRun args_c3 env_c3).1.countP isEnter ≤ 1) ∧
    (mainRun args_c3 env_c3).1.countP isEnter = 1 :=
  ⟨c3_bundle_session_released_once args_c3 env_c3, by decide⟩

/-- Concrete arguments used to exhibit claim C4. -/
def args_c4 : Args :=
  { resource_group := "rg4", location := "eastus", suffix := some "s4",
    upload_directory := "up4", repo_type := "distribution" }

/-- An environment whose initial deployment outputs lack `base_url`. -/
def env_c4 : Env :=
  { create_rg_ok := true, extract_requirements_ok := true, initial_create_ok := true,
    initial_outputs := [("function_app_name", "f4"), ("package_container", "p4"),
      ("python_container", "y4"), ("storage_account", "a4")],
    funcapp_enter_ok := true, funcapp_deploy_ok := true, wait_trigger_ok := true,
    eventgrid_create_ok := true }

/-- C4: if the run reaches the output-extraction point (suffix valid,
resource group created, requirements extracted, initial deployment
succeeded) and the initial deployment's outputs lack one of the five
expected keys, then the run fails with a missing-output error naming one
of those absent keys, the trace stops at the initial deployment (no
bundle, event-routing, or advisory stage is invoked), and in particular a
missing `base_url` fails with the `base_url` missing-output error. -/
theorem c4_missing_output_fails (args : Args) (env : Env)
    (hs : suffixTooLong args.suffix = false) (h1 : env.create_rg_ok = true)
    (h2 : env.extract_requirements_ok = true) (h3 : env.initial_create_ok = true)
    (hmiss : env.initial_outputs.lookup "base_url" = none ∨
      env.initial_outputs.lookup "function_app_name" = none ∨
      env.initial_outputs.lookup "package_container" = none ∨
      env.initial_outputs.lookup "python_container" = none ∨
      env.initial_outputs.lookup "storage_account" = none) :
    (∃ k, k ∈ ["base_url", "function_app_name", "package_container",
        "python_container", "storage_account"] ∧
      env.initial_outputs.lookup k = none ∧
      (mainRun args env).2 = some (Err.missingOutput k)) ∧
    (mainRun args env).1 = traceThroughInitial args ∧
    (env.initial_outputs.lookup "base_url" = none →
      (mainRun args env).2 = some (Err.missingOutput "base_url")) := by
  cases hb : env.initial_outputs.lookup "base_url"
  case none =>
    rw [mainRun_eq_missingBase args env hs h1 h2 h3 hb]
    exact ⟨⟨"base_url", by simp, hb, rfl⟩, rfl, fun _ => rfl⟩
  case some b =>
  cases hf : env.initial_outputs.lookup "function_app_name"
  case none =>
    rw [mainRun_eq_missingFan args env b hs h1 h2 h3 hb hf]
    exact ⟨⟨"function_app_name", by simp, hf, rfl⟩, rfl, fun hb2 => by simp_all⟩
  case some f =>
  cases hp : env.initial_outputs.lookup "package_container"
  case none =>
    rw [mainRun_eq_missingPkg args env b f hs h1 h2 h3 hb hf hp]
    exact ⟨⟨"package_container", by simp, hp, rfl⟩, rfl, fun hb2 => by simp_all⟩
  case some p =>
  cases hy : env.initial_outputs.lookup "python_container"
  case none =>
    rw [mainRun_eq_missingPy args env b f p hs h1 h2 h3 hb hf hp hy]
    exact ⟨⟨"python_container", by simp, hy, rfl⟩, rfl, fun hb2 => by simp_all⟩
  case some y =>
  cases ha : env.initial_outputs.lookup "storage_account"
  case none =>
    rw [mainRun_eq_missingSa args env b f p y hs h1 h2 h3 hb hf hp hy ha]
    exact ⟨⟨"storage_account", by simp, ha, rfl⟩, rfl, fun hb2 => by simp_all⟩
  case some a =>
    simp_all

/-- Witness for C4 at a concrete run missing `base_url`. -/
theorem c4_missing_output_fails_witness :
    (∃ k, k ∈ ["base_url", "function_app_name", "package_container",
        "python_container", "storage_account"] ∧
      env_c4.initial_outputs.lookup k = none ∧
      (mainRun args_c4 env_c4).2 = some (Err.missingOutput k)) ∧
    (mainRun args_c4 env_c4).1 = traceThroughInitial args_c4 ∧
    (env_c4.initial_outputs.lookup "base_url" = none →
      (mainRun args_c4 env_c4).2 = some (Err.missingOutput "base_url")) :=
  c4_missing_output_fails args_c4 env_c4 (by decide) rfl rfl rfl (by decide)

/-- Arguments with a user-supplied empty-string suffix (length 0). -/
def args_c5x : Args :=
  { resource_group := "rg5", location := "eastus", suffix := some "",
    upload_directory := "up5", repo_type := "distribution" }

/-- A fully successful environment for the claim C5 counterexample. -/
def env_c5 : Env :=
  { create_rg_ok := true, extract_requirements_ok := true, initial_create_ok := true,
    initial_outputs := [("base_url", "u5"), ("function_app_name", "f5"),
      ("package_container", "p5"), ("python_container", "y5"),
      ("storage_account", "a5")],
    funcapp_enter_ok := true, funcapp_deploy_ok := true, wait_trigger_ok := true,
    eventgrid_create_ok := true }

/-- Counterexample to C5 as stated: the user-supplied suffix `""` has
length 0 ≤ 14 and is accepted (the run completes without error), yet it
is NOT passed into the stage parameter sets — no `"suffix"` key reaches
the initial or function-app parameters, because the guard
`if args.suffix:` treats the empty string as absent. -/
theorem c5_counterexample_empty_suffix :
    (mainRun args_c5x env_c5).2 = none ∧
    (initialParameters args_c5x).lookup "suffix" = none ∧
    (funcappParameters args_c5x).lookup "suffix" = none := by
  decide

/-- C5 (amended): for every user-supplied NON-EMPTY suffix of length at
most 14, the suffix is accepted and passed unchanged into the stage
parameter sets (initial deployment, function-app bundle, and the common
parameters handed to the event-routing deployment), and the run never
fails with the suffix validation error; for every suffix of length
greater than 14, the run fails with the validation error before
performing any side effect (the trace is empty — in particular the
resource group is not created).  The amendment restricts the first part
to non-empty suffixes: the empty string is accepted but treated as
absent. -/
theorem c5_amended_suffix_validation (args : Args) (env : Env) (s : String)
    (hsuf : args.suffix = some s) :
    (s ≠ "" → s.length ≤ 14 →
      (initialParameters args).lookup "suffix" = some (PValue.str s) ∧
      (funcappParameters args).lookup "suffix" = some (PValue.str s) ∧
      commonParameters args.suffix = [("suffix", PValue.str s)] ∧
      (mainRun args env).2 ≠ some Err.validationError) ∧
    (14 < s.length → mainRun args env = ([], some Err.validationError)) := by
  constructor
  · intro hne hlen
    have hie : s.isEmpty = false := by
      cases he : s.isEmpty
      · rfl
      · exact absurd ((String.isEmpty_iff s).mp he) hne
    have hcp : commonParameters args.suffix = [("suffix", PValue.str s)] := by
      simp [commonParameters, hsuf, hie]
    have hstl : suffixTooLong args.suffix = false := by
      simp [suffixTooLong, hsuf]
      omega
    refine ⟨?_, ?_, hcp, ?_⟩
    · simp [initialParameters, hcp, pyUpdate, List.lookup]
    · simp [funcappParameters, hcp, pyUpdate, List.lookup]
    · rw [Ne, validation_iff args env, hstl]
      simp
  · intro hlen
    have hne : s ≠ "" := by
      intro he
      rw [he] at hlen
      simp [String.length] at hlen
    have hie : s.isEmpty = false := by
      cases he : s.isEmpty
      · rfl
      · exact absurd ((String.isEmpty_iff s).mp he) hne
    have hstl : suffixTooLong args.suffix = true := by
      simp [suffixTooLong, hsuf, hie]
      omega
    exact mainRun_eq_validation args env hstl

/-- Arguments with the valid 4-character suffix "ab12". -/
def args_c5w : Args :=
  { resource_group := "rg5w", location := "eastus", suffix := some "ab12",
    upload_directory := "up5", repo_type := "flat" }

/-- Arguments with a 16-character suffix, over the 14-character bound. -/
def args_c5long : Args :=
  { resource_group := "rg5w", location := "eastus",
    suffix := some "abcdefghijklmnop", upload_directory := "up5",
    repo_type := "flat" }

/-- Witness for the amended C5: "ab12" is passed unchanged into all three
parameter sets, and a 16-character suffix aborts the run with an empty
trace. -/
theorem c5_amended_suffix_validation_witness :
    ((initialParameters args_c5w).lookup "suffix" = some (PValue.str "ab12") ∧
      (funcappParameters args_c5w).lookup "suffix" = some (PValue.str "ab12") ∧
      commonParameters args_c5w.suffix = [("suffix", PValue.str "ab12")] ∧
      (mainRun args_c5w env_c5).2 ≠ some Err.validationError) ∧
    mainRun args_c5long env_c5 = ([], some Err.validationError) :=
  ⟨(c5_amended_suffix_validation args_c5w env_c5 "ab12" rfl).1 (by decide) (by decide),
   (c5_amended_suffix_validation args_c5long env_c5 "abcdefghijklmnop" rfl).2
     (by decide)⟩

/-- C6 (spec-modelled): when the user supplies no suffix, the generated
suffix has 13 characters (within the 14-character bound), consists only
of characters safe for resource names (lowercase base-36), and is the
suffix the policy resolves to for the run. -/
theorem c6_generated_suffix_within_policy (seed : Nat) :
    (generateSuffix seed).length ≤ 14 ∧
    (generateSuffix seed).data.all isSafeSuffixChar = true ∧
    nameSuffixResolve none seed = Except.ok (generateSuffix seed) := by
  refine ⟨?_, ?_, rfl⟩
  · simp [generateSuffix, String.length]
  · simp only [generateSuffix, List.all_eq_true]
    intro c hc
    simp only [List.mem_map, List.mem_range] at hc
    obtain ⟨i, _, rfl⟩ := hc
    have hlt : seed / 36 ^ i % 36 < 36 := Nat.mod_lt _ (by decide)
    revert hlt
    generalize seed / 36 ^ i % 36 = m
    revert m
    decide

/-- Witness for C6 at a concrete entropy seed. -/
theorem c6_generated_suffix_within_policy_witness :
    (generateSuffix 987654321).length ≤ 14 ∧
    (generateSuffix 987654321).data.all isSafeSuffixChar = true ∧
    nameSuffixResolve none 987654321 = Except.ok (generateSuffix 987654321) :=
  c6_generated_suffix_within_policy 987654321

/-- Concrete arguments used to exhibit claim C7. -/
def args_c7 : Args :=
  { resource_group := "repo7", location := "eastus", suffix := some "s7",
    upload_directory := "up7", repo_type := "distribution" }

/-- First successful environment for C7. -/
def env_c7a : Env :=
  { create_rg_ok := true, extract_requirements_ok := true, initial_create_ok := true,
    initial_outputs := [("base_url", "uA"), ("function_app_name", "fA"),
      ("package_container", "pA"), ("python_container", "yA"),
      ("storage_account", "aA")],
    funcapp_enter_ok := true, funcapp_deploy_ok := true, wait_trigger_ok := true,
    eventgrid_create_ok := true }

/-- Second successful environment for C7, with different cloud outputs. -/
def env_c7b : Env :=
  { env_c7a with
    initial_outputs := [("base_url", "uB"), ("function_app_name", "fB"),
      ("package_container", "pB"), ("python_container", "yB"),
      ("storage_account", "aB")] }

/-- C7: two completed runs with the same input submit exactly the same
deployment names to the deployment service — the initial deployment is
named after the resource group and the event-routing deployment is the
resource-group name with the fixed "_eg" token appended — regardless of
what the cloud returned in between (two-run determinism of naming). -/
theorem c7_idempotent_deployment_names (args : Args) (env env2 : Env)
    (h : (mainRun args env).2 = none) (h2 : (mainRun args env2).2 = none) :
    deploymentNames (mainRun args env).1 = deploymentNames (mainRun args env2).1 ∧
    deploymentNames (mainRun args env).1 =
      [args.resource_group, args.resource_group ++ "_eg"] :=
  ⟨(names_of_none args env h).trans (names_of_none args env2 h2).symm,
   names_of_none args env h⟩

/-- Witness for C7: two successful runs of "repo7" against environments
with different cloud outputs submit the same names, "repo7" and
"repo7_eg". -/
theorem c7_idempotent_deployment_names_witness :
    deploymentNames (mainRun args_c7 env_c7a).1 =
      deploymentNames (mainRun args_c7 env_c7b).1 ∧
    deploymentNames (mainRun args_c7 env_c7a).1 = ["repo7", "repo7" ++ "_eg"] :=
  c7_idempotent_deployment_names args_c7 env_c7a env_c7b (by decide) (by decide)

/-- Concrete arguments used to exhibit claim C8. -/
def args_c8 : Args :=
  { resource_group := "rg8", location := "eastus", suffix := none,
    upload_directory := "up8", repo_type := "distribution" }

/-- A fully successful environment for C8. -/
def env_c8 : Env :=
  { create_rg_ok := true, extract_requirements_ok := true, initial_create_ok := true,
    initial_outputs := [("base_url", "u8"), ("function_app_name", "f8"),
      ("package_container", "p8"), ("python_container", "y8"),
      ("storage_account", "a8")],
    funcapp_enter_ok := true, funcapp_deploy_ok := true, wait_trigger_ok := true,
    eventgrid_create_ok := true }

/-- C8: for a recognized repository mode (flat or distribution) the
terminal invalid-repo-type branch is never taken; that branch is reached
only for a mode outside the recognized set; and on a successful run the
advisory matching the configured mode is the final emitted call.
Moreover any arguments produced by the argument parser have a recognized
mode, so through the whole program the terminal branch is unreachable. -/
theorem c8_advisory_matches_recognized_mode (args : Args) (env : Env) :
    ((args.repo_type = "flat" ∨ args.repo_type = "distribution") →
      ∀ s, (mainRun args env).2 ≠ some (Err.invalidRepoType s)) ∧
    (∀ s, (mainRun args env).2 = some (Err.invalidRepoType s) →
      args.repo_type ≠ "distribution" ∧ args.repo_type ≠ "flat") ∧
    ((mainRun args env).2 = none → args.repo_type = "distribution" →
      (mainRun args env).1.getLast?.any isAdviceDistribution = true) ∧
    ((mainRun args env).2 = none → args.repo_type = "flat" →
      (mainRun args env).1.getLast?.any isAdviceFlat = true) ∧
    (∀ raw, parseArgs raw = Except.ok args →
      ∀ s, (mainRun args env).2 ≠ some (Err.invalidRepoType s)) := by
  have hmain : (args.repo_type = "flat" ∨ args.repo_type = "distribution") →
      ∀ s, (mainRun args env).2 ≠ some (Err.invalidRepoType s) := by
    intro hmode s hcon
    rcases invalid_repo_only_outside args env s hcon with ⟨_, hnd, hnf⟩
    cases hmode with
    | inl hfl => exact hnf hfl
    | inr hds => exact hnd hds
  refine ⟨hmain, ?_, ?_, ?_, ?_⟩
  · intro s hcon
    exact (invalid_repo_only_outside args env s hcon).2
  · intro h hd
    exact (advisory_of_mode args env h).1 hd
  · intro h hf
    exact (advisory_of_mode args env h).2 hf
  · intro raw hp
    exact hmain (parse_repo_type raw args hp)

/-- Witness for C8: on a successful distribution-mode run the last call
is the distribution advisory, and the invalid-repo-type error does not
occur. -/
theorem c8_advisory_matches_recognized_mode_witness :
    (mainRun args_c8 env_c8).1.getLast?.any isAdviceDistribution = true ∧
    (mainRun args_c8 env_c8).2 ≠ some (Err.invalidRepoType "distribution") :=
  ⟨(c8_advisory_matches_recognized_mode args_c8 env_c8).2.2.1 (by decide) rfl,
   (c8_advisory_matches_recognized_mode args_c8 env_c8).1 (Or.inr rfl)
     "distribution"⟩

/-- Raw command-line input with an unrecognized repository mode. -/
def raw_c9 : RawArgs :=
  { resource_group := "rg9", location := none, suffix := none,
    upload_directory := none, repo_type := some "federated" }

/-- Any environment; C9 shows it is never consulted. -/
def env_c9 : Env :=
  { create_rg_ok := true, extract_requirements_ok := true, initial_create_ok := true,
    initial_outputs := [], funcapp_enter_ok := true, funcapp_deploy_ok := true,
    wait_trigger_ok := true, eventgrid_create_ok := true }

/-- C9: for every supplied repository mode outside {flat, distribution},
the program fails at argument parsing with the configuration error and
the trace is empty — no resource group is created and no deployment is
submitted, whatever the environment would have answered. -/
theorem c9_unrecognized_mode_rejected_before_stages (raw : RawArgs) (env : Env)
    (rt : String) (hr : raw.repo_type = some rt)
    (h1 : rt ≠ "flat") (h2 : rt ≠ "distribution") :
    runProgram raw env = ([], some Err.configurationError) := by
  simp [runProgram, parseArgs, hr, h1, h2]

/-- Witness for C9: the mode "federated" is rejected with an empty trace. -/
theorem c9_unrecognized_mode_rejected_before_stages_witness :
    runProgram raw_c9 env_c9 = ([], some Err.configurationError) :=
  c9_unrecognized_mode_rejected_before_stages raw_c9 env_c9 "federated" rfl
    (by decide) (by decide)

/-- C10: a user-supplied empty-string suffix passes the length validation
(no validation error) but is treated exactly as an absent suffix: the run
is indistinguishable from the same run without a suffix, and no "suffix"
key reaches the initial deployment's, the function-app bundle's, or the
event-routing deployment's parameters. -/
theorem c10_empty_suffix_treated_absent (args : Args) (env : Env)
    (h : args.suffix = some "") :
    mainRun args env = mainRun { args with suffix := none } env ∧
    (mainRun args env).2 ≠ some Err.validationError ∧
    (initialParameters args).lookup "suffix" = none ∧
    (funcappParameters args).lookup "suffix" = none ∧
    commonParameters args.suffix = [] := by
  obtain ⟨rg, loc, suf, upl, rt⟩ := args
  simp only at h
  subst h
  refine ⟨?_, ?_, ?_, ?_, ?_⟩
  · have he : "".isEmpty = true := rfl
    simp [mainRun, suffixTooLong, commonParameters, initialParameters,
      funcappParameters, he]
  · have he : "".isEmpty = true := rfl
    rw [Ne, validation_iff]
    simp [suffixTooLong, he]
  · have he : "".isEmpty = true := rfl
    simp [initialParameters, commonParameters, pyUpdate, List.lookup, he]
  · have he : "".isEmpty = true := rfl
    simp [funcappParameters, commonParameters, pyUpdate, List.lookup, he]
  · have he : "".isEmpty = true := rfl
    simp [commonParameters, he]

/-- Concrete arguments with an empty-string suffix for the C10 witness. -/
def args_c10 : Args :=
  { resource_group := "rg10", location := "eastus", suffix := some "",
    upload_directory := "up10", repo_type := "flat" }

/-- An environment for the C10 witness. -/
def env_c10 : Env :=
  { create_rg_ok := true, extract_requirements_ok := true, initial_create_ok := true,
    initial_outputs := [("base_url", "u10"), ("function_app_name", "f10"),
      ("package_container", "p10"), ("python_container", "y10"),
      ("storage_account", "a10")],
    funcapp_enter_ok := true, funcapp_deploy_ok := true, wait_trigger_ok := true,
    eventgrid_create_ok := true }

/-- Witness for C10 at a concrete empty-suffix run. -/
theorem c10_empty_suffix_treated_absent_witness :
    mainRun args_c10 env_c10 = mainRun { args_c10 with suffix := none } env_c10 ∧
    (mainRun args_c10 env_c10).2 ≠ some Err.validationError ∧
    (initialParameters args_c10).lookup "suffix" = none ∧
    (funcappParameters args_c10).lookup "suffix" = none ∧
    commonParameters args_c10.suffix = [] :=
  c10_empty_suffix_treated_absent args_c10 env_c10 rfl
